import Mathlib

/-!
Verification of the trieste model-stacking and acquisition-builder core.

This file is a shallow embedding of the code in
`trieste/models/model_interfaces.py` and `trieste/acquisition/interface.py`.
Tensors are embedded as row lists of integers together with an explicit
trailing (column) width, matching the static shape information TensorFlow
tracks; raised Python exceptions are embedded as `Except` errors / `Option`
failures, and the dispatch of a `ModelStack` to its constituent models is
embedded as the list of per-constituent calls it performs, in order.
-/

/-- Embedding of a rank-2 tensor: a list of rows plus the statically known
trailing dimension (column width). `width` plays the role of `shape[-1]`. -/
structure Mat where
  width : Nat
  rows : List (List Int)
deriving Repr, DecidableEq

/-- Embedding of `trieste.data.Dataset`: index-aligned query points and
observations. -/
structure Dataset where
  query_points : Mat
  observations : Mat
deriving Repr, DecidableEq

/-- Columns `[off, off+len)` of each row: the contiguous column slice of a
row-list tensor. -/
def colSlice (rows : List (List Int)) (off len : Nat) : List (List Int) :=
  rows.map (fun r => (r.drop off).take len)

/-- Row-level splitting along the last axis: successively take the first
`n` columns and recurse on the rest, one output per requested size. This is
the data movement performed by `tf.split(value, sizes, axis=-1)`. -/
def splitRowsAux : List Nat → List (List Int) → List (List (List Int))
  | [], _ => []
  | n :: ns, rows => rows.map (fun r => r.take n) :: splitRowsAux ns (rows.map (fun r => r.drop n))

/-- Embedding of `tf.split(m, sizes, axis=-1)`: requires the trailing
dimension to equal the sum of the requested sizes (otherwise TensorFlow
raises an invalid-argument error, embedded as `none`), and returns one
sub-tensor per size. -/
def tf_split (m : Mat) (sizes : List Nat) : Option (List Mat) :=
  if m.width = sizes.sum then
    some (List.zipWith Mat.mk sizes (splitRowsAux sizes m.rows))
  else
    none

/-- Embedding of `ModelStack.update` from `model_interfaces.py`.  The stack
splits `dataset.observations` along the event axis by the constructor event
sizes and then calls `model.update(Dataset(dataset.query_points, obs))` on
each constituent in order.  The result is the ordered list of datasets
delivered to the constituents (entry `i` is the single argument of the one
`update` call on constituent `i`); `none` embeds the `tf.split` shape error,
raised before any constituent call happens. -/
def ModelStack.update (event_sizes : List Nat) (dataset : Dataset) : Option (List Dataset) :=
  (tf_split dataset.observations event_sizes).map
    (fun obss => obss.map (fun obs => Dataset.mk dataset.query_points obs))

/-- Embedding of `ModelStack.optimize` from `model_interfaces.py`; the body
is identical to `ModelStack.update` except that the per-constituent call is
`optimize` instead of `update`.  As for `update`, the result is the ordered
list of datasets delivered to the constituents. -/
def ModelStack.optimize (event_sizes : List Nat) (dataset : Dataset) : Option (List Dataset) :=
  (tf_split dataset.observations event_sizes).map
    (fun obss => obss.map (fun obs => Dataset.mk dataset.query_points obs))

/-- Auxiliary: `tf.split` produces exactly one output per requested size. -/
theorem splitRowsAux_length (sizes : List Nat) (rows : List (List Int)) :
    (splitRowsAux sizes rows).length = sizes.length := by
  induction sizes generalizing rows with
  | nil => rfl
  | cons n ns ih => simp [splitRowsAux, ih]

theorem splitRowsAux_get? (sizes : List Nat) (rows : List (List Int)) (i : Nat)
    (h : i < sizes.length) :
    (splitRowsAux sizes rows).get? i =
      some (colSlice rows ((sizes.take i).sum) (sizes.get ⟨i, h⟩)) := by
  induction sizes generalizing rows i with
  | nil => exact absurd h (Nat.not_lt_zero i)
  | cons n ns ih =>
    cases i with
    | zero =>
      simp [splitRowsAux, colSlice]
    | succ j =>
      have hj : j < ns.length := Nat.lt_of_succ_lt_succ h
      simp only [splitRowsAux, List.get?_cons_succ]
      rw [ih (rows.map (fun r => r.drop n)) j hj]
      simp only [colSlice, List.map_map, List.take_succ_cons, List.sum_cons]
      congr 2
      funext r
      simp [Function.comp, List.drop_drop, Nat.add_comm]

/-- C1: for a ModelStack built from constituents with the given event sizes
and a dataset whose observation width equals their sum, `ModelStack.update`
calls the update of constituent `i` exactly once, with a dataset whose
query points are the unsplit `dataset.query_points` and whose observations
are the contiguous column slice from `sum` of the sizes before `i` to that
point plus size `i` of `dataset.observations`; `ModelStack.optimize` routes
identically. -/
theorem C1_modelstack_update_routes_contiguous_slices
    (event_sizes : List Nat) (d : Dataset)
    (h : d.observations.width = event_sizes.sum) :
    ∃ calls : List Dataset,
      ModelStack.update event_sizes d = some calls ∧
      calls.length = event_sizes.length ∧
      (∀ i : Fin event_sizes.length,
        calls.get? i = some (Dataset.mk d.query_points
          (Mat.mk (event_sizes.get i)
            (colSlice d.observations.rows ((event_sizes.take i).sum) (event_sizes.get i))))) ∧
      ModelStack.optimize event_sizes d = ModelStack.update event_sizes d := by
  refine ⟨(List.zipWith Mat.mk event_sizes (splitRowsAux event_sizes d.observations.rows)).map
      (fun obs => Dataset.mk d.query_points obs), ?_, ?_, ?_, rfl⟩
  · simp [ModelStack.update, tf_split, h]
  · simp [List.length_zipWith, splitRowsAux_length]
  · intro i
    rw [List.get?_map, List.get?_zipWith', List.get?_eq_get i.isLt,
      splitRowsAux_get? event_sizes d.observations.rows i i.isLt]
    rfl

/-- Witness for C1 at event sizes `[1, 2]` and a width-3 observation
matrix. -/
theorem C1_witness :
    ∃ calls : List Dataset,
      ModelStack.update [1, 2]
          (Dataset.mk (Mat.mk 1 [[0], [10]]) (Mat.mk 3 [[1, 2, 3], [4, 5, 6]])) = some calls ∧
      calls.length = ([1, 2] : List Nat).length ∧
      (∀ i : Fin ([1, 2] : List Nat).length,
        calls.get? i = some (Dataset.mk (Mat.mk 1 [[0], [10]])
          (Mat.mk (([1, 2] : List Nat).get i)
            (colSlice [[1, 2, 3], [4, 5, 6]] (([1, 2] : List Nat).take i).sum
              (([1, 2] : List Nat).get i))))) ∧
      ModelStack.optimize [1, 2]
          (Dataset.mk (Mat.mk 1 [[0], [10]]) (Mat.mk 3 [[1, 2, 3], [4, 5, 6]])) =
        ModelStack.update [1, 2]
          (Dataset.mk (Mat.mk 1 [[0], [10]]) (Mat.mk 3 [[1, 2, 3], [4, 5, 6]])) :=
  C1_modelstack_update_routes_contiguous_slices [1, 2]
    (Dataset.mk (Mat.mk 1 [[0], [10]]) (Mat.mk 3 [[1, 2, 3], [4, 5, 6]])) (by decide)

/-- C5: for a ModelStack and a dataset whose observation width differs from
the sum of the constituent event sizes, both `ModelStack.update` and
`ModelStack.optimize` fail with the shape error of `tf.split` before any
constituent call is dispatched: the result is `none`, so the list of
constituent calls is empty and no constituent state changes. -/
theorem C5_modelstack_width_mismatch_all_or_nothing
    (event_sizes : List Nat) (d : Dataset)
    (h : d.observations.width ≠ event_sizes.sum) :
    ModelStack.update event_sizes d = none ∧
    ModelStack.optimize event_sizes d = none := by
  constructor
  · simp [ModelStack.update, tf_split, h]
  · simp [ModelStack.optimize, tf_split, h]

/-- Witness for C5 at event sizes `[1, 2]` and a width-2 observation
matrix. -/
theorem C5_witness :
    ModelStack.update [1, 2]
        (Dataset.mk (Mat.mk 1 [[0]]) (Mat.mk 2 [[1, 2]])) = none ∧
    ModelStack.optimize [1, 2]
        (Dataset.mk (Mat.mk 1 [[0]]) (Mat.mk 2 [[1, 2]])) = none :=
  C5_modelstack_width_mismatch_all_or_nothing [1, 2]
    (Dataset.mk (Mat.mk 1 [[0]]) (Mat.mk 2 [[1, 2]])) (by decide)

/-- Horizontal concatenation of two rank-2 tensors along the last axis. -/
def hcat (a b : Mat) : Mat :=
  Mat.mk (a.width + b.width) (List.zipWith (fun r s => r ++ s) a.rows b.rows)

/-- Embedding of `tf.concat(ms, axis=-1)` on rank-2 tensors.  TensorFlow
concatenates a nonempty list of tensors; the empty case is junk and never
reached because a ModelStack has at least one constituent. -/
def tf_concat_last : List Mat → Mat
  | [] => Mat.mk 0 []
  | [m] => m
  | m :: ms => hcat m (tf_concat_last ms)

/-- Well-formedness of the embedding of a rank-2 tensor with `n` rows: the
row count is `n` and the static width matches every row. -/
def MatWF (n : Nat) (m : Mat) : Prop :=
  m.rows.length = n ∧ ∀ r ∈ m.rows, r.length = m.width

instance (n : Nat) (m : Mat) : Decidable (MatWF n m) := by
  unfold MatWF; infer_instance

/-- Embedding of a constituent probabilistic model as used by ModelStack:
`predict` returns the marginal mean and variance tensors, and
`predict_joint` returns the mean tensor together with the covariance
tensor of shape event size by batch by batch, embedded as the list of
per-output batch-by-batch covariance blocks. -/
structure PModel where
  predict : Mat → Mat × Mat
  predict_joint : Mat → Mat × List Mat

/-- Embedding of `ModelStack.predict` from `model_interfaces.py`: each
constituent is invoked on the full `query_points` and the per-constituent
means and variances are concatenated along the event axis in constructor
order. -/
def ModelStack.predict (models : List PModel) (query_points : Mat) : Mat × Mat :=
  (tf_concat_last (models.map (fun m => (m.predict query_points).1)),
   tf_concat_last (models.map (fun m => (m.predict query_points).2)))

/-- Embedding of `tf.concat(ts, axis=-3)` on tensors of shape event size by
batch by batch: concatenation along the leading axis that indexes the
per-output covariance blocks. -/
def tf_concat_lead : List (List Mat) → List Mat
  | [] => []
  | t :: ts => t ++ tf_concat_lead ts

/-- Embedding of `ModelStack.predict_joint` from `model_interfaces.py`:
each constituent is invoked on the full `query_points`; means are
concatenated along the event axis and covariances along the axis indexing
the per-output blocks. -/
def ModelStack.predict_joint (models : List PModel) (query_points : Mat) : Mat × List Mat :=
  (tf_concat_last (models.map (fun m => (m.predict_joint query_points).1)),
   tf_concat_lead (models.map (fun m => (m.predict_joint query_points).2)))

/-- The width of a concatenation is the sum of the widths. -/
theorem tf_concat_last_width (ms : List Mat) :
    (tf_concat_last ms).width = (ms.map Mat.width).sum := by
  induction ms with
  | nil => rfl
  | cons m ms ih =>
    cases ms with
    | nil => simp [tf_concat_last]
    | cons m2 ms2 => simp [tf_concat_last, hcat, ih]

/-- Taking or dropping the first `w` columns of a rowwise concatenation
recovers the left and right halves when the left rows have length `w`. -/
theorem zipWith_append_take_drop (w : Nat) (a : List (List Int)) :
    ∀ b : List (List Int), (∀ r ∈ a, r.length = w) → a.length = b.length →
      (List.zipWith (fun r s => r ++ s) a b).map (fun r => r.take w) = a ∧
      (List.zipWith (fun r s => r ++ s) a b).map (fun r => r.drop w) = b := by
  induction a with
  | nil =>
    intro b _ hab
    cases b with
    | nil => simp
    | cons s b => simp at hab
  | cons r a ih =>
    intro b ha hab
    cases b with
    | nil => simp at hab
    | cons s b =>
      have hr : r.length = w := ha r (by simp)
      have hrest := ih b (fun t ht => ha t (by simp [ht])) (by simpa using hab)
      refine ⟨?_, ?_⟩
      · simp only [List.zipWith_cons_cons, List.map_cons, hrest.1]
        rw [← hr, List.take_left]
      · simp only [List.zipWith_cons_cons, List.map_cons, hrest.2]
        rw [← hr, List.drop_left]

/-- Every row of a rowwise concatenation of tensors with row lengths `wa`
and `wb` has length `wa + wb`. -/
theorem zipWith_append_length (wa wb : Nat) (a : List (List Int)) :
    ∀ b : List (List Int), (∀ r ∈ a, r.length = wa) → (∀ s ∈ b, s.length = wb) →
      ∀ t ∈ List.zipWith (fun r s => r ++ s) a b, t.length = wa + wb := by
  induction a with
  | nil => intro b _ _ t ht; simp at ht
  | cons r a ih =>
    intro b ha hb t ht
    cases b with
    | nil => simp at ht
    | cons s b =>
      simp only [List.zipWith_cons_cons, List.mem_cons] at ht
      rcases ht with h | h
      · subst h
        simp [ha r (by simp), hb s (by simp)]
      · exact ih b (fun u hu => ha u (by simp [hu])) (fun u hu => hb u (by simp [hu])) t h

/-- A concatenation of well-formed tensors with `N` rows is well formed
with `N` rows. -/
theorem tf_concat_last_wf (N : Nat) (ms : List Mat) (hne : ms ≠ [])
    (hwf : ∀ m ∈ ms, MatWF N m) : MatWF N (tf_concat_last ms) := by
  induction ms with
  | nil => cases hne rfl
  | cons m ms ih =>
    cases ms with
    | nil => exact hwf m (by simp)
    | cons m2 ms2 =>
      have hm : MatWF N m := hwf m (by simp)
      have hc : MatWF N (tf_concat_last (m2 :: ms2)) :=
        ih (by simp) (fun x hx => hwf x (by simp [List.mem_cons] at hx ⊢; tauto))
      constructor
      · show (List.zipWith (fun r s => r ++ s) m.rows (tf_concat_last (m2 :: ms2)).rows).length = N
        rw [List.length_zipWith, hm.1, hc.1, Nat.min_self]
      · show ∀ t ∈ List.zipWith (fun r s => r ++ s) m.rows (tf_concat_last (m2 :: ms2)).rows,
          t.length = (hcat m (tf_concat_last (m2 :: ms2))).width
        exact zipWith_append_length m.width (tf_concat_last (m2 :: ms2)).width m.rows
          (tf_concat_last (m2 :: ms2)).rows hm.2 hc.2

/-- Splitting the rows of a concatenation by the constituent widths
recovers the constituent rows. -/
theorem splitRowsAux_concat (N : Nat) (ms : List Mat)
    (hwf : ∀ m ∈ ms, MatWF N m) :
    splitRowsAux (ms.map Mat.width) (tf_concat_last ms).rows = ms.map Mat.rows := by
  induction ms with
  | nil => rfl
  | cons m ms ih =>
    cases ms with
    | nil =>
      have hm : MatWF N m := hwf m (by simp)
      simp only [List.map_cons, List.map_nil, tf_concat_last, splitRowsAux]
      congr 1
      have : ∀ r ∈ m.rows, r.take m.width = r := by
        intro r hr
        rw [← hm.2 r hr, List.take_length]
      calc m.rows.map (fun r => r.take m.width) = m.rows.map id := List.map_congr_left this
        _ = m.rows := List.map_id m.rows
    | cons m2 ms2 =>
      have hm : MatWF N m := hwf m (by simp)
      have hrest : ∀ x ∈ m2 :: ms2, MatWF N x := by
        intro x hx; exact hwf x (by simp [List.mem_cons] at hx ⊢; tauto)
      have hc : MatWF N (tf_concat_last (m2 :: ms2)) :=
        tf_concat_last_wf N (m2 :: ms2) (by simp) hrest
      have hsplit := zipWith_append_take_drop m.width m.rows (tf_concat_last (m2 :: ms2)).rows
        hm.2 (by rw [hm.1, hc.1])
      show (List.zipWith (fun r s => r ++ s) m.rows (tf_concat_last (m2 :: ms2)).rows).map
            (fun r => r.take m.width) ::
          splitRowsAux ((m2 :: ms2).map Mat.width)
            ((List.zipWith (fun r s => r ++ s) m.rows (tf_concat_last (m2 :: ms2)).rows).map
              (fun r => r.drop m.width)) =
        m.rows :: (m2 :: ms2).map Mat.rows
      rw [hsplit.1, hsplit.2, ih hrest]

/-- Reconstructing each tensor from its width and rows is the identity. -/
theorem zipWith_mk_width_rows (ms : List Mat) :
    List.zipWith Mat.mk (ms.map Mat.width) (ms.map Mat.rows) = ms := by
  induction ms with
  | nil => rfl
  | cons m ms ih => simp [ih]

/-- Splitting a concatenation of well-formed tensors by their widths
succeeds and returns exactly the constituent tensors. -/
theorem tf_split_concat (N : Nat) (ms : List Mat)
    (hwf : ∀ m ∈ ms, MatWF N m) :
    tf_split (tf_concat_last ms) (ms.map Mat.width) = some ms := by
  unfold tf_split
  rw [if_pos (by rw [tf_concat_last_width ms]), splitRowsAux_concat N ms hwf,
    zipWith_mk_width_rows]

/-- A pointwise function equality along `Forall₂` yields a map equality. -/
theorem forall2_map_eq {α β : Type} (f : α → β) :
    ∀ {l : List α} {l2 : List β}, List.Forall₂ (fun a b => f a = b) l l2 → l.map f = l2 := by
  intro l l2 h
  induction h with
  | nil => rfl
  | cons h _ ih => simp [h, ih]

/-- Each left element of a `Forall₂` pair list is related to some right
element. -/
theorem forall2_mem_left {α β : Type} {R : α → β → Prop} :
    ∀ {l : List α} {l2 : List β}, List.Forall₂ R l l2 → ∀ a ∈ l, ∃ b, R a b := by
  intro l l2 h
  induction h with
  | nil => intro a ha; simp at ha
  | cons h _ ih =>
    intro a ha
    rcases List.mem_cons.mp ha with rfl | ha
    · exact ⟨_, h⟩
    · exact ih a ha

/-- C2: for a ModelStack of constituents with event sizes `E` and a batch
of query points on which constituent `i` produces well-formed mean and
variance tensors of width `E i`, `ModelStack.predict` returns a mean and a
variance whose trailing dimension is the sum of the event sizes, and
splitting that mean and variance into contiguous trailing-axis chunks of
the event sizes reproduces exactly the predict output of each constituent,
in constructor order. -/
theorem C2_modelstack_predict_concat_and_slice
    (models : List PModel) (event_sizes : List Nat) (query_points : Mat) (N : Nat)
    (hne : models ≠ [])
    (hwf : List.Forall₂ (fun m e =>
        MatWF N (m.predict query_points).1 ∧ (m.predict query_points).1.width = e ∧
        MatWF N (m.predict query_points).2 ∧ (m.predict query_points).2.width = e)
      models event_sizes) :
    (ModelStack.predict models query_points).1.width = event_sizes.sum ∧
    (ModelStack.predict models query_points).2.width = event_sizes.sum ∧
    tf_split (ModelStack.predict models query_points).1 event_sizes =
      some (models.map (fun m => (m.predict query_points).1)) ∧
    tf_split (ModelStack.predict models query_points).2 event_sizes =
      some (models.map (fun m => (m.predict query_points).2)) := by
  have hmw : (models.map (fun m => (m.predict query_points).1)).map Mat.width = event_sizes := by
    rw [List.map_map]
    exact forall2_map_eq _ (hwf.imp (fun _ _ h => h.2.1))
  have hvw : (models.map (fun m => (m.predict query_points).2)).map Mat.width = event_sizes := by
    rw [List.map_map]
    exact forall2_map_eq _ (hwf.imp (fun _ _ h => h.2.2.2))
  have hmwf : ∀ x ∈ models.map (fun m => (m.predict query_points).1), MatWF N x := by
    intro x hx
    rcases List.mem_map.mp hx with ⟨m, hm, rfl⟩
    rcases forall2_mem_left hwf m hm with ⟨e, he⟩
    exact he.1
  have hvwf : ∀ x ∈ models.map (fun m => (m.predict query_points).2), MatWF N x := by
    intro x hx
    rcases List.mem_map.mp hx with ⟨m, hm, rfl⟩
    rcases forall2_mem_left hwf m hm with ⟨e, he⟩
    exact he.2.2.1
  refine ⟨?_, ?_, ?_, ?_⟩
  · rw [show (ModelStack.predict models query_points).1 =
        tf_concat_last (models.map (fun m => (m.predict query_points).1)) from rfl,
      tf_concat_last_width, hmw]
  · rw [show (ModelStack.predict models query_points).2 =
        tf_concat_last (models.map (fun m => (m.predict query_points).2)) from rfl,
      tf_concat_last_width, hvw]
  · rw [show (ModelStack.predict models query_points).1 =
        tf_concat_last (models.map (fun m => (m.predict query_points).1)) from rfl,
      ← hmw]
    exact tf_split_concat N _ hmwf
  · rw [show (ModelStack.predict models query_points).2 =
        tf_concat_last (models.map (fun m => (m.predict query_points).2)) from rfl,
      ← hvw]
    exact tf_split_concat N _ hvwf

/-- A concrete constituent model of event size 1 used by witnesses. -/
def pmodelA : PModel :=
  { predict := fun _ => (Mat.mk 1 [[1], [2]], Mat.mk 1 [[3], [4]])
  , predict_joint := fun _ => (Mat.mk 1 [[1], [2]], [Mat.mk 2 [[1, 0], [0, 1]]]) }

/-- A concrete constituent model of event size 2 used by witnesses. -/
def pmodelB : PModel :=
  { predict := fun _ => (Mat.mk 2 [[5, 6], [7, 8]], Mat.mk 2 [[9, 10], [11, 12]])
  , predict_joint := fun _ =>
      (Mat.mk 2 [[5, 6], [7, 8]], [Mat.mk 2 [[2, 0], [0, 2]], Mat.mk 2 [[3, 1], [1, 3]]]) }

/-- A concrete batch of two query points used by witnesses. -/
def qpExample : Mat := Mat.mk 1 [[0], [10]]

/-- Witness for C2 at two constituents of event sizes 1 and 2 on a batch of
two query points. -/
theorem C2_witness :
    (ModelStack.predict [pmodelA, pmodelB] qpExample).1.width = ([1, 2] : List Nat).sum ∧
    (ModelStack.predict [pmodelA, pmodelB] qpExample).2.width = ([1, 2] : List Nat).sum ∧
    tf_split (ModelStack.predict [pmodelA, pmodelB] qpExample).1 [1, 2] =
      some ([pmodelA, pmodelB].map (fun m => (m.predict qpExample).1)) ∧
    tf_split (ModelStack.predict [pmodelA, pmodelB] qpExample).2 [1, 2] =
      some ([pmodelA, pmodelB].map (fun m => (m.predict qpExample).2)) :=
  C2_modelstack_predict_concat_and_slice [pmodelA, pmodelB] [1, 2] qpExample 2
    (List.cons_ne_nil _ _)
    (List.Forall₂.cons (by simp [pmodelA]; decide)
      (List.Forall₂.cons (by simp [pmodelB]; decide) List.Forall₂.nil))

/-- Concatenation along the leading block axis is the flattening of the
per-model block lists, preserving order. -/
theorem tf_concat_lead_eq_join (ts : List (List Mat)) :
    tf_concat_lead ts = ts.join := by
  induction ts with
  | nil => rfl
  | cons t ts ih => simp [tf_concat_lead, ih]

/-- C6: for a ModelStack over a batch of B query points on which each
constituent produces a well-formed joint prediction, `ModelStack.predict_joint`
invokes every constituent on the full batch and combines the per-model
covariance blocks along the single leading block axis, in constructor
order: the result is the ordered flattening of the per-model block lists,
it has one B-by-B block per output dimension (sum of the event sizes in
total) and never materializes a dense joint covariance across models,
while the means are concatenated along the event axis in constructor
order. -/
theorem C6_modelstack_predict_joint_block_structure
    (models : List PModel) (event_sizes : List Nat) (B : Nat) (query_points : Mat)
    (hne : models ≠ [])
    (hwf : List.Forall₂ (fun m e =>
        ((m.predict_joint query_points).2).length = e ∧
        (∀ blk ∈ (m.predict_joint query_points).2, MatWF B blk ∧ blk.width = B) ∧
        (m.predict_joint query_points).1.width = e)
      models event_sizes) :
    (ModelStack.predict_joint models query_points).2 =
      (models.map (fun m => (m.predict_joint query_points).2)).join ∧
    (ModelStack.predict_joint models query_points).2.length = event_sizes.sum ∧
    (∀ blk ∈ (ModelStack.predict_joint models query_points).2,
      MatWF B blk ∧ blk.width = B) ∧
    (ModelStack.predict_joint models query_points).1 =
      tf_concat_last (models.map (fun m => (m.predict_joint query_points).1)) ∧
    (ModelStack.predict_joint models query_points).1.width = event_sizes.sum := by
  have hjoin : (ModelStack.predict_joint models query_points).2 =
      (models.map (fun m => (m.predict_joint query_points).2)).join :=
    tf_concat_lead_eq_join _
  have hlens : (models.map (fun m => ((m.predict_joint query_points).2).length)) = event_sizes :=
    forall2_map_eq _ (hwf.imp (fun _ _ h => h.1))
  have hmw : (models.map (fun m => (m.predict_joint query_points).1)).map Mat.width =
      event_sizes := by
    rw [List.map_map]
    exact forall2_map_eq _ (hwf.imp (fun _ _ h => h.2.2))
  refine ⟨hjoin, ?_, ?_, rfl, ?_⟩
  · rw [hjoin, List.length_join, List.map_map, ← hlens]
    rfl
  · intro blk hblk
    rw [hjoin] at hblk
    rcases List.mem_join.mp hblk with ⟨l, hl, hbl⟩
    rcases List.mem_map.mp hl with ⟨m, hm, rfl⟩
    rcases forall2_mem_left hwf m hm with ⟨e, he⟩
    exact he.2.1 blk hbl
  · rw [show (ModelStack.predict_joint models query_points).1 =
        tf_concat_last (models.map (fun m => (m.predict_joint query_points).1)) from rfl,
      tf_concat_last_width, hmw]

/-- Witness for C6 at two constituents of event sizes 1 and 2 over a batch
of two query points. -/
theorem C6_witness :
    (ModelStack.predict_joint [pmodelA, pmodelB] qpExample).2 =
      ([pmodelA, pmodelB].map (fun m => (m.predict_joint qpExample).2)).join ∧
    (ModelStack.predict_joint [pmodelA, pmodelB] qpExample).2.length =
      ([1, 2] : List Nat).sum ∧
    (∀ blk ∈ (ModelStack.predict_joint [pmodelA, pmodelB] qpExample).2,
      MatWF 2 blk ∧ blk.width = 2) ∧
    (ModelStack.predict_joint [pmodelA, pmodelB] qpExample).1 =
      tf_concat_last ([pmodelA, pmodelB].map (fun m => (m.predict_joint qpExample).1)) ∧
    (ModelStack.predict_joint [pmodelA, pmodelB] qpExample).1.width =
      ([1, 2] : List Nat).sum :=
  C6_modelstack_predict_joint_block_structure [pmodelA, pmodelB] [1, 2] 2 qpExample
    (List.cons_ne_nil _ _)
    (List.Forall₂.cons (by simp [pmodelA]; decide)
      (List.Forall₂.cons (by simp [pmodelB]; decide) List.Forall₂.nil))

/-- Embedding of the tag type: an opaque string addressing one model and
dataset pair. -/
abbrev Tag := String

/-- Embedding of the Python `KeyError` raised by a mapping lookup with a
missing tag: the missing-tag error of the spec. -/
inductive AcqError where
  | keyError (tag : Tag)
deriving Repr, DecidableEq

/-- Embedding of `SingleModelAcquisitionBuilder` from
`acquisition/interface.py`: a builder over exactly one model and optional
dataset.  The `update_acquisition_function` field is the method a subclass
may override; the inherited base-class body is `smab_default_update`. -/
structure SingleModelAcquisitionBuilder (M D F : Type) where
  prepare_acquisition_function : M → Option D → F
  update_acquisition_function : F → M → Option D → F

/-- The base-class body of
`SingleModelAcquisitionBuilder.update_acquisition_function`: delegate to
`prepare_acquisition_function` on the same model and dataset, ignoring the
function argument. -/
def smab_default_update {M D F : Type} (prepare : M → Option D → F) :
    F → M → Option D → F :=
  fun _function model dataset => prepare model dataset

/-- Embedding of `AcquisitionFunctionBuilder` from
`acquisition/interface.py`: a builder over tag-indexed mappings of models
and datasets.  Mapping lookups may raise `KeyError`, hence `Except`. -/
structure AcquisitionFunctionBuilder (M D F : Type) where
  prepare_acquisition_function :
    List (Tag × M) → Option (List (Tag × D)) → Except AcqError F
  update_acquisition_function :
    F → List (Tag × M) → Option (List (Tag × D)) → Except AcqError F

/-- The base-class body of
`AcquisitionFunctionBuilder.update_acquisition_function`: delegate to
`prepare_acquisition_function` on the same mappings, ignoring the function
argument. -/
def afb_default_update {M D F : Type}
    (prepare : List (Tag × M) → Option (List (Tag × D)) → Except AcqError F) :
    F → List (Tag × M) → Option (List (Tag × D)) → Except AcqError F :=
  fun _function models datasets => prepare models datasets

/-- Embedding of `SingleModelAcquisitionBuilder.using(tag)`: the anonymous
multi-tag adapter class.  On `prepare` it evaluates `models[tag]` first
(raising `KeyError` if absent), then passes `None` when the datasets
mapping itself is `None` and otherwise evaluates `datasets[tag]` (raising
`KeyError` if absent), and forwards to the wrapped single-model builder;
`update` performs the same lookups and forwards to the wrapped update. -/
def SingleModelAcquisitionBuilder.usingTag {M D F : Type}
    (single_builder : SingleModelAcquisitionBuilder M D F) (tag : Tag) :
    AcquisitionFunctionBuilder M D F :=
  { prepare_acquisition_function := fun models datasets =>
      match List.lookup tag models with
      | none => .error (.keyError tag)
      | some m =>
        match datasets with
        | none => .ok (single_builder.prepare_acquisition_function m none)
        | some ds =>
          match List.lookup tag ds with
          | none => .error (.keyError tag)
          | some d => .ok (single_builder.prepare_acquisition_function m (some d))
  , update_acquisition_function := fun f models datasets =>
      match List.lookup tag models with
      | none => .error (.keyError tag)
      | some m =>
        match datasets with
        | none => .ok (single_builder.update_acquisition_function f m none)
        | some ds =>
          match List.lookup tag ds with
          | none => .error (.keyError tag)
          | some d => .ok (single_builder.update_acquisition_function f m (some d)) }

/-- Embedding of `SingleModelGreedyAcquisitionBuilder` from
`acquisition/interface.py`: a greedy builder over one model, optional
dataset, optional pending points and, on update, the
new-optimization-step flag. -/
structure SingleModelGreedyAcquisitionBuilder (M D P F : Type) where
  prepare_acquisition_function : M → Option D → Option P → F
  update_acquisition_function : F → M → Option D → Option P → Bool → F

/-- The base-class body of
`SingleModelGreedyAcquisitionBuilder.update_acquisition_function`:
delegate to `prepare_acquisition_function` on the same model, dataset and
pending points, ignoring both the function argument and the
new-optimization-step flag. -/
def smgab_default_update {M D P F : Type} (prepare : M → Option D → Option P → F) :
    F → M → Option D → Option P → Bool → F :=
  fun _function model dataset pending_points _new_optimization_step =>
    prepare model dataset pending_points

/-- Embedding of `GreedyAcquisitionFunctionBuilder` from
`acquisition/interface.py`: the multi-tag greedy builder contract. -/
structure GreedyAcquisitionFunctionBuilder (M D P F : Type) where
  prepare_acquisition_function :
    List (Tag × M) → Option (List (Tag × D)) → Option P → Except AcqError F
  update_acquisition_function :
    F → List (Tag × M) → Option (List (Tag × D)) → Option P → Bool → Except AcqError F

/-- The base-class body of
`GreedyAcquisitionFunctionBuilder.update_acquisition_function`: delegate
to `prepare_acquisition_function` on the same models, datasets and pending
points, ignoring both the function argument and the
new-optimization-step flag. -/
def gafb_default_update {M D P F : Type}
    (prepare : List (Tag × M) → Option (List (Tag × D)) → Option P → Except AcqError F) :
    F → List (Tag × M) → Option (List (Tag × D)) → Option P → Bool → Except AcqError F :=
  fun _function models datasets pending_points _new_optimization_step =>
    prepare models datasets pending_points

/-- Embedding of `SingleModelGreedyAcquisitionBuilder.using(tag)`: the
anonymous multi-tag greedy adapter.  Lookups behave as in the non-greedy
adapter; `pending_points` and `new_optimization_step` are forwarded to the
wrapped builder unchanged. -/
def SingleModelGreedyAcquisitionBuilder.usingTag {M D P F : Type}
    (single_builder : SingleModelGreedyAcquisitionBuilder M D P F) (tag : Tag) :
    GreedyAcquisitionFunctionBuilder M D P F :=
  { prepare_acquisition_function := fun models datasets pending_points =>
      match List.lookup tag models with
      | none => .error (.keyError tag)
      | some m =>
        match datasets with
        | none => .ok (single_builder.prepare_acquisition_function m none pending_points)
        | some ds =>
          match List.lookup tag ds with
          | none => .error (.keyError tag)
          | some d =>
            .ok (single_builder.prepare_acquisition_function m (some d) pending_points)
  , update_acquisition_function := fun f models datasets pending_points new_optimization_step =>
      match List.lookup tag models with
      | none => .error (.keyError tag)
      | some m =>
        match datasets with
        | none => .ok (single_builder.update_acquisition_function f m none
            pending_points new_optimization_step)
        | some ds =>
          match List.lookup tag ds with
          | none => .error (.keyError tag)
          | some d => .ok (single_builder.update_acquisition_function f m (some d)
              pending_points new_optimization_step) }

/-- C3: applying `using(tag)` to a single-model builder and preparing from
mappings that carry the model and the dataset under that tag returns
exactly the result of calling the wrapped single-model
`prepare_acquisition_function` on that model and dataset directly; entries
stored under any other tag have no effect on the result. -/
theorem C3_using_adapter_refines_single_builder {M D F : Type}
    (b : SingleModelAcquisitionBuilder M D F) (t other : Tag) (m m2 : M) (d : D)
    (hne : other ≠ t) :
    (b.usingTag t).prepare_acquisition_function [(t, m), (other, m2)] (some [(t, d)]) =
      .ok (b.prepare_acquisition_function m (some d)) ∧
    (∀ (models : List (Tag × M)) (ds : List (Tag × D)),
      List.lookup t models = some m → List.lookup t ds = some d →
      (b.usingTag t).prepare_acquisition_function models (some ds) =
        .ok (b.prepare_acquisition_function m (some d))) := by
  constructor
  · simp [SingleModelAcquisitionBuilder.usingTag, List.lookup]
  · intro models ds h1 h2
    simp [SingleModelAcquisitionBuilder.usingTag, h1, h2]

/-- A concrete single-model builder used by witnesses. -/
def smabExample : SingleModelAcquisitionBuilder Nat Nat Nat :=
  { prepare_acquisition_function := fun model dataset => model + dataset.getD 0
  , update_acquisition_function :=
      smab_default_update (fun model dataset => model + dataset.getD 0) }

/-- A concrete single-model greedy builder used by witnesses. -/
def smgabExample : SingleModelGreedyAcquisitionBuilder Nat Nat Nat Nat :=
  { prepare_acquisition_function := fun model dataset pending_points =>
      model + dataset.getD 0 + pending_points.getD 0
  , update_acquisition_function :=
      smgab_default_update (fun model dataset pending_points =>
        model + dataset.getD 0 + pending_points.getD 0) }

/-- Witness for C3: the adapter with tag `a` on a two-tag model mapping
agrees with the direct single-model call. -/
theorem C3_witness :
    (smabExample.usingTag ("a")).prepare_acquisition_function
        [("a", 3), ("b", 4)] (some [("a", 5)]) =
      .ok (smabExample.prepare_acquisition_function 3 (some 5)) :=
  (C3_using_adapter_refines_single_builder smabExample ("a") ("b") 3 4 5 (by decide)).1

/-- C4: for an adapter produced by `using(tag)` (both the plain and the
greedy variant), `prepare_acquisition_function` and
`update_acquisition_function` fail with the missing-tag `KeyError` when
the models mapping lacks the tag; when the datasets mapping is present but
lacks the tag they also fail with the missing-tag `KeyError` instead of
defaulting; and when the datasets mapping itself is `None` the wrapped
single-model builder is called with dataset `None` and no error is
raised. -/
theorem C4_using_adapter_missing_tag_errors {M D P F : Type}
    (b : SingleModelAcquisitionBuilder M D F)
    (g : SingleModelGreedyAcquisitionBuilder M D P F) (tag : Tag) (f : F)
    (models : List (Tag × M)) (ds : List (Tag × D)) (pending_points : Option P)
    (step : Bool) :
    (List.lookup tag models = none →
      (b.usingTag tag).prepare_acquisition_function models (some ds) =
        .error (.keyError tag) ∧
      (b.usingTag tag).prepare_acquisition_function models none = .error (.keyError tag) ∧
      (b.usingTag tag).update_acquisition_function f models (some ds) =
        .error (.keyError tag) ∧
      (b.usingTag tag).update_acquisition_function f models none = .error (.keyError tag) ∧
      (g.usingTag tag).prepare_acquisition_function models (some ds) pending_points =
        .error (.keyError tag) ∧
      (g.usingTag tag).update_acquisition_function f models (some ds) pending_points step =
        .error (.keyError tag)) ∧
    (∀ m, List.lookup tag models = some m → List.lookup tag ds = none →
      (b.usingTag tag).prepare_acquisition_function models (some ds) =
        .error (.keyError tag) ∧
      (b.usingTag tag).update_acquisition_function f models (some ds) =
        .error (.keyError tag) ∧
      (g.usingTag tag).prepare_acquisition_function models (some ds) pending_points =
        .error (.keyError tag) ∧
      (g.usingTag tag).update_acquisition_function f models (some ds) pending_points step =
        .error (.keyError tag)) ∧
    (∀ m, List.lookup tag models = some m →
      (b.usingTag tag).prepare_acquisition_function models none =
        .ok (b.prepare_acquisition_function m none) ∧
      (b.usingTag tag).update_acquisition_function f models none =
        .ok (b.update_acquisition_function f m none) ∧
      (g.usingTag tag).prepare_acquisition_function models none pending_points =
        .ok (g.prepare_acquisition_function m none pending_points) ∧
      (g.usingTag tag).update_acquisition_function f models none pending_points step =
        .ok (g.update_acquisition_function f m none pending_points step)) := by
  refine ⟨?_, ?_, ?_⟩
  · intro h
    refine ⟨?_, ?_, ?_, ?_, ?_, ?_⟩ <;>
      simp [SingleModelAcquisitionBuilder.usingTag,
        SingleModelGreedyAcquisitionBuilder.usingTag, h]
  · intro m h1 h2
    refine ⟨?_, ?_, ?_, ?_⟩ <;>
      simp [SingleModelAcquisitionBuilder.usingTag,
        SingleModelGreedyAcquisitionBuilder.usingTag, h1, h2]
  · intro m h1
    refine ⟨?_, ?_, ?_, ?_⟩ <;>
      simp [SingleModelAcquisitionBuilder.usingTag,
        SingleModelGreedyAcquisitionBuilder.usingTag, h1]

/-- Witness for C4: missing model tag, missing dataset tag, and absent
datasets mapping, on concrete builders with tag `a`. -/
theorem C4_witness :
    ((smabExample.usingTag ("a")).prepare_acquisition_function [("b", 2)] (some [("a", 5)]) =
      .error (.keyError ("a")) ∧
     (smgabExample.usingTag ("a")).update_acquisition_function 0 [("b", 2)] (some [("a", 5)])
        (some 7) true = .error (.keyError ("a"))) ∧
    ((smabExample.usingTag ("a")).prepare_acquisition_function [("a", 3)] (some [("b", 5)]) =
      .error (.keyError ("a"))) ∧
    ((smabExample.usingTag ("a")).prepare_acquisition_function [("a", 3)] none =
      .ok (smabExample.prepare_acquisition_function 3 none) ∧
     (smgabExample.usingTag ("a")).update_acquisition_function 0 [("a", 3)] none (some 7) true =
      .ok (smgabExample.update_acquisition_function 0 3 none (some 7) true)) :=
  ⟨⟨((C4_using_adapter_missing_tag_errors smabExample smgabExample ("a") 0 [("b", 2)] [("a", 5)]
        (some 7) true).1 (by decide)).1,
    (((((C4_using_adapter_missing_tag_errors smabExample smgabExample ("a") 0 [("b", 2)]
        [("a", 5)] (some 7) true).1 (by decide)).2).2).2).2.2⟩,
   ((C4_using_adapter_missing_tag_errors smabExample smgabExample ("a") 0 [("a", 3)] [("b", 5)]
        (some 7) true).2.1 3 (by decide) (by decide)).1,
   ⟨((C4_using_adapter_missing_tag_errors smabExample smgabExample ("a") 0 [("a", 3)] [("b", 5)]
        (some 7) true).2.2 3 (by decide)).1,
    ((C4_using_adapter_missing_tag_errors smabExample smgabExample ("a") 0 [("a", 3)] [("b", 5)]
        (some 7) true).2.2 3 (by decide)).2.2.2⟩⟩

/-- C7: the default (non-overridden) `update_acquisition_function` of both
greedy builder contracts delegates to `prepare_acquisition_function` with
the same models, datasets and pending points, and its result does not
depend on the function argument or on the new-optimization-step flag;
moreover the single-model-greedy tag adapter forwards `pending_points`
unchanged (never split or filtered by tag) and forwards
`new_optimization_step` unchanged to the wrapped builder. -/
theorem C7_greedy_default_update_and_adapter_forwarding {M D P F : Type}
    (gprep : List (Tag × M) → Option (List (Tag × D)) → Option P → Except AcqError F)
    (sprep : M → Option D → Option P → F)
    (g : SingleModelGreedyAcquisitionBuilder M D P F) (tag : Tag) (f f2 : F)
    (models : List (Tag × M)) (ds : List (Tag × D))
    (datasets : Option (List (Tag × D))) (model : M) (dataset : Option D)
    (pending_points : Option P) (s1 s2 : Bool) (m : M) (d : D) :
    gafb_default_update gprep f models datasets pending_points s1 =
      gprep models datasets pending_points ∧
    gafb_default_update gprep f2 models datasets pending_points s2 =
      gafb_default_update gprep f models datasets pending_points s1 ∧
    smgab_default_update sprep f model dataset pending_points s1 =
      sprep model dataset pending_points ∧
    smgab_default_update sprep f2 model dataset pending_points s2 =
      smgab_default_update sprep f model dataset pending_points s1 ∧
    (List.lookup tag models = some m → List.lookup tag ds = some d →
      (g.usingTag tag).update_acquisition_function f models (some ds) pending_points s1 =
        .ok (g.update_acquisition_function f m (some d) pending_points s1)) ∧
    (List.lookup tag models = some m →
      (g.usingTag tag).update_acquisition_function f models none pending_points s1 =
        .ok (g.update_acquisition_function f m none pending_points s1)) := by
  refine ⟨rfl, rfl, rfl, rfl, ?_, ?_⟩
  · intro h1 h2
    simp [SingleModelGreedyAcquisitionBuilder.usingTag, h1, h2]
  · intro h1
    simp [SingleModelGreedyAcquisitionBuilder.usingTag, h1]

/-- Witness for C7 on concrete greedy builders with tag `a`, two distinct
function arguments and both flag values. -/
theorem C7_witness :
    gafb_default_update (fun _ _ p => (Except.ok (p.getD 0) : Except AcqError Nat))
        9 [("a", 3)] (some [("a", 5)]) (some 7) true =
      (fun _ _ p => (Except.ok (p.getD 0) : Except AcqError Nat)) [("a", 3)]
        (some [("a", 5)]) (some 7) ∧
    gafb_default_update (fun _ _ p => (Except.ok (p.getD 0) : Except AcqError Nat))
        11 [("a", 3)] (some [("a", 5)]) (some 7) false =
      gafb_default_update (fun _ _ p => (Except.ok (p.getD 0) : Except AcqError Nat))
        9 [("a", 3)] (some [("a", 5)]) (some 7) true ∧
    smgab_default_update (fun (m : Nat) (d : Option Nat) (p : Option Nat) => m + d.getD 0 + p.getD 0) 9 3 (some 5) (some 7) true =
      (fun (m : Nat) (d : Option Nat) (p : Option Nat) => m + d.getD 0 + p.getD 0) 3 (some 5) (some 7) ∧
    smgab_default_update (fun (m : Nat) (d : Option Nat) (p : Option Nat) => m + d.getD 0 + p.getD 0) 11 3 (some 5) (some 7) false =
      smgab_default_update (fun (m : Nat) (d : Option Nat) (p : Option Nat) => m + d.getD 0 + p.getD 0) 9 3 (some 5) (some 7) true ∧
    (smgabExample.usingTag ("a")).update_acquisition_function 9 [("a", 3)] (some [("a", 5)])
        (some 7) false =
      .ok (smgabExample.update_acquisition_function 9 3 (some 5) (some 7) false) ∧
    (smgabExample.usingTag ("a")).update_acquisition_function 9 [("a", 3)] none (some 7) false =
      .ok (smgabExample.update_acquisition_function 9 3 none (some 7) false) := by
  have h := C7_greedy_default_update_and_adapter_forwarding
    (fun _ _ p => (Except.ok (p.getD 0) : Except AcqError Nat))
    (fun (m : Nat) (d : Option Nat) (p : Option Nat) => m + d.getD 0 + p.getD 0) smgabExample ("a") 9 11
    [("a", 3)] [("a", 5)] (some [("a", 5)]) 3 (some 5) (some 7) true false 3 5
  have h2 := C7_greedy_default_update_and_adapter_forwarding
    (fun _ _ p => (Except.ok (p.getD 0) : Except AcqError Nat))
    (fun (m : Nat) (d : Option Nat) (p : Option Nat) => m + d.getD 0 + p.getD 0) smgabExample ("a") 9 11
    [("a", 3)] [("a", 5)] (some [("a", 5)]) 3 (some 5) (some 7) false true 3 5
  exact ⟨h.1, h2.2.1, h.2.2.1, h2.2.2.2.1,
    h2.2.2.2.2.1 (by decide) (by decide), h2.2.2.2.2.2 (by decide)⟩

/-- C8: a multi-tag or single-model acquisition builder whose
`update_acquisition_function` is not overridden (it is the inherited
base-class default) returns on update exactly the result of
`prepare_acquisition_function` on the same models and datasets, ignoring
the function argument, so evaluation after either path reflects the
latest models and datasets. -/
theorem C8_default_update_delegates_to_prepare {M D F : Type}
    (b : AcquisitionFunctionBuilder M D F) (sb : SingleModelAcquisitionBuilder M D F)
    (hb : b.update_acquisition_function = afb_default_update b.prepare_acquisition_function)
    (hsb : sb.update_acquisition_function =
      smab_default_update sb.prepare_acquisition_function)
    (f f2 : F) (models : List (Tag × M)) (datasets : Option (List (Tag × D)))
    (model : M) (dataset : Option D) :
    b.update_acquisition_function f models datasets =
      b.prepare_acquisition_function models datasets ∧
    b.update_acquisition_function f2 models datasets =
      b.update_acquisition_function f models datasets ∧
    sb.update_acquisition_function f model dataset =
      sb.prepare_acquisition_function model dataset ∧
    sb.update_acquisition_function f2 model dataset =
      sb.update_acquisition_function f model dataset := by
  rw [hb, hsb]
  exact ⟨rfl, rfl, rfl, rfl⟩

/-- A concrete multi-tag builder with the inherited default update, used
by witnesses. -/
def afbExample : AcquisitionFunctionBuilder Nat Nat Nat :=
  { prepare_acquisition_function := fun models datasets =>
      .ok (models.length + (datasets.getD []).length)
  , update_acquisition_function :=
      afb_default_update (fun models datasets =>
        .ok (models.length + (datasets.getD []).length)) }

/-- Witness for C8 on concrete non-overriding builders with two distinct
function arguments. -/
theorem C8_witness :
    afbExample.update_acquisition_function 9 [("a", 3)] (some [("a", 5)]) =
      afbExample.prepare_acquisition_function [("a", 3)] (some [("a", 5)]) ∧
    afbExample.update_acquisition_function 11 [("a", 3)] (some [("a", 5)]) =
      afbExample.update_acquisition_function 9 [("a", 3)] (some [("a", 5)]) ∧
    smabExample.update_acquisition_function 9 3 (some 5) =
      smabExample.prepare_acquisition_function 3 (some 5) ∧
    smabExample.update_acquisition_function 11 3 (some 5) =
      smabExample.update_acquisition_function 9 3 (some 5) :=
  C8_default_update_delegates_to_prepare afbExample smabExample rfl rfl
    9 11 [("a", 3)] (some [("a", 5)]) 3 (some 5)

/-- Embedding of a raised Python `ValueError`: either carrying a message
(`raise ValueError(f-string)`) or bare (`raise ValueError`). -/
inductive PyError where
  | valueErrorMsg (msg : String)
  | valueErrorBare
deriving Repr, DecidableEq

/-- The full shape of the embedding of a rank-2 tensor, as printed in the
error messages: row count then trailing dimension. -/
def shapeOf (m : Mat) : List Nat := [m.rows.length, m.width]

/-- The message of the query-point branch of `_assert_data_is_compatible`,
built from the new and the existing query-point shapes exactly as the
f-string in the source builds it. -/
def incompatibleQueryPointsMsg (newShape oldShape : List Nat) : String :=
  "Shape " ++ toString newShape ++ " of new query points is incompatible with shape " ++
    toString oldShape ++ " of existing query points. Trailing dimensions must match."

/-- The message of the observation branch of `_assert_data_is_compatible`,
built from the new and the existing observation shapes exactly as the
f-string in the source builds it. -/
def incompatibleObservationsMsg (newShape oldShape : List Nat) : String :=
  "Shape " ++ toString newShape ++ " of new observations is incompatible with shape " ++
    toString oldShape ++ " of existing observations. Trailing dimensions must match."

/-- Embedding of `_assert_data_is_compatible` from `model_interfaces.py`:
raise a descriptive `ValueError` if the trailing dimensions of the query
points differ, then if the trailing dimensions of the observations
differ. -/
def assert_data_is_compatible (new_data existing_data : Dataset) : Except PyError Unit :=
  if new_data.query_points.width ≠ existing_data.query_points.width then
    .error (.valueErrorMsg (incompatibleQueryPointsMsg
      (shapeOf new_data.query_points) (shapeOf existing_data.query_points)))
  else if new_data.observations.width ≠ existing_data.observations.width then
    .error (.valueErrorMsg (incompatibleObservationsMsg
      (shapeOf new_data.observations) (shapeOf existing_data.observations)))
  else
    .ok ()

/-- Embedding of the wrapped GPflow model data `model.data`: the stored
query points `x` and observations `y`. -/
structure GPRState where
  x : Mat
  y : Mat
deriving Repr, DecidableEq

/-- Embedding of `GaussianProcessRegression.update` from
`model_interfaces.py`: run `_assert_data_is_compatible` against the stored
data, then re-check the two trailing dimensions with bare `ValueError`
raises, then replace the stored data with the new dataset.  An error
leaves the stored data untouched, which the caller keeps. -/
def GaussianProcessRegression.update (st : GPRState) (dataset : Dataset) :
    Except PyError GPRState :=
  match assert_data_is_compatible dataset (Dataset.mk st.x st.y) with
  | .error e => .error e
  | .ok _ =>
    if dataset.query_points.width ≠ st.x.width then
      .error .valueErrorBare
    else if dataset.observations.width ≠ st.y.width then
      .error .valueErrorBare
    else
      .ok (GPRState.mk dataset.query_points dataset.observations)

/-- C9: `GaussianProcessRegression.update` succeeds exactly when the new
dataset matches the stored data in both the feature (query-point trailing)
dimension and the output (observation trailing) dimension, in which case
the stored data becomes the new dataset; otherwise it fails with a
dimension-mismatch `ValueError` whose message identifies both the new and
the existing shape (the query-point message when the feature dimensions
differ, else the observation message), and the stored data is unchanged
since no new state is produced. -/
theorem C9_gpr_update_dimension_check (st : GPRState) (d : Dataset) :
    ((d.query_points.width = st.x.width ∧ d.observations.width = st.y.width) →
      GaussianProcessRegression.update st d =
        .ok (GPRState.mk d.query_points d.observations)) ∧
    ((∃ st2, GaussianProcessRegression.update st d = .ok st2) ↔
      (d.query_points.width = st.x.width ∧ d.observations.width = st.y.width)) ∧
    (d.query_points.width ≠ st.x.width →
      GaussianProcessRegression.update st d = .error (.valueErrorMsg
        (incompatibleQueryPointsMsg (shapeOf d.query_points) (shapeOf st.x)))) ∧
    (d.query_points.width = st.x.width → d.observations.width ≠ st.y.width →
      GaussianProcessRegression.update st d = .error (.valueErrorMsg
        (incompatibleObservationsMsg (shapeOf d.observations) (shapeOf st.y)))) := by
  refine ⟨?_, ⟨?_, ?_⟩, ?_, ?_⟩
  · intro h
    simp [GaussianProcessRegression.update, assert_data_is_compatible, h.1, h.2]
  · rintro ⟨st2, hst2⟩
    by_cases hq : d.query_points.width = st.x.width
    · by_cases ho : d.observations.width = st.y.width
      · exact ⟨hq, ho⟩
      · simp [GaussianProcessRegression.update, assert_data_is_compatible, hq, ho] at hst2
    · simp [GaussianProcessRegression.update, assert_data_is_compatible, hq] at hst2
  · intro h
    simp [GaussianProcessRegression.update, assert_data_is_compatible, h.1, h.2]
  · intro h
    simp [GaussianProcessRegression.update, assert_data_is_compatible, h]
  · intro hq ho
    simp [GaussianProcessRegression.update, assert_data_is_compatible, hq, ho]

/-- Witness for C9: a matching update succeeds and a feature-dimension
mismatch fails with the descriptive message naming both shapes. -/
theorem C9_witness :
    GaussianProcessRegression.update
        (GPRState.mk (Mat.mk 2 [[0, 0]]) (Mat.mk 1 [[1]]))
        (Dataset.mk (Mat.mk 2 [[3, 4], [5, 6]]) (Mat.mk 1 [[7], [8]])) =
      .ok (GPRState.mk (Mat.mk 2 [[3, 4], [5, 6]]) (Mat.mk 1 [[7], [8]])) ∧
    GaussianProcessRegression.update
        (GPRState.mk (Mat.mk 2 [[0, 0]]) (Mat.mk 1 [[1]]))
        (Dataset.mk (Mat.mk 3 [[3, 4, 9]]) (Mat.mk 1 [[7]])) =
      .error (.valueErrorMsg
        (incompatibleQueryPointsMsg (shapeOf (Mat.mk 3 [[3, 4, 9]]))
          (shapeOf (Mat.mk 2 [[0, 0]])))) :=
  ⟨(C9_gpr_update_dimension_check (GPRState.mk (Mat.mk 2 [[0, 0]]) (Mat.mk 1 [[1]]))
      (Dataset.mk (Mat.mk 2 [[3, 4], [5, 6]]) (Mat.mk 1 [[7], [8]]))).1 (by decide),
   (C9_gpr_update_dimension_check (GPRState.mk (Mat.mk 2 [[0, 0]]) (Mat.mk 1 [[1]]))
      (Dataset.mk (Mat.mk 3 [[3, 4, 9]]) (Mat.mk 1 [[7]]))).2.2.1 (by decide)⟩

/-- C10: the two bare `raise ValueError` branches in
`GaussianProcessRegression.update` are unreachable: whenever control
reaches them, `_assert_data_is_compatible` has already raised on exactly
the same trailing-dimension mismatch, so no call to `update` ever fails
with the bare `ValueError`; every dimension-mismatch failure carries the
descriptive message. -/
theorem C10_gpr_bare_raises_unreachable (st : GPRState) (d : Dataset) :
    GaussianProcessRegression.update st d ≠ .error .valueErrorBare := by
  intro hcontra
  by_cases hq : d.query_points.width = st.x.width
  · by_cases ho : d.observations.width = st.y.width
    · simp [GaussianProcessRegression.update, assert_data_is_compatible, hq, ho] at hcontra
    · simp [GaussianProcessRegression.update, assert_data_is_compatible, hq, ho] at hcontra
  · simp [GaussianProcessRegression.update, assert_data_is_compatible, hq] at hcontra
